import Mathlib

/-!
Verification of the host-side WebAssembly marshalling protocol of the
rcp19-wasm-example repository (files `evaluate.js` and `evaluator.js`).

The embedding models:
 * JSON values (`Json`) and the fragment of `JSON.stringify` / `JSON.parse`
   used by the host code (integer numbers; the claims never involve
   fractional values),
 * the JavaScript distinction between `undefined` and `null` arguments
   (`JsArg`) and for the output-slot variable (`JsStrVal`),
 * the sandbox (wasm instance) as an abstract per-call behavior
   (`SandboxBehavior`): the pointer its `alloc` export returns and whether
   its `run` export traps or returns, together with the strings it delivers
   to the imported `evaluator.output` callback,
 * the two host entry points: the one-shot `evaluate` of `evaluate.js`
   and `EvaluatorJs.Evaluator.evaluate` of `evaluator.js`, each recording
   the sequence of `alloc` / memory-write / `run` / `free` operations it
   performs in a `Trace`.
-/

/-- JSON values. Numbers are modelled as integers: every value the claims
and the example code exercise is in this fragment. -/
inductive Json where
  | null : Json
  | bool : Bool → Json
  | num : Int → Json
  | str : String → Json
  | arr : List Json → Json
  | obj : List (String × Json) → Json

/-- A JavaScript argument position: either `undefined` (the argument was
omitted) or an actual JSON-representable value. -/
inductive JsArg where
  | undef : JsArg
  | val : Json → JsArg

/-- The possible contents of the host-side output-slot variable: the
one-shot form declares `let outputStr;` (undefined), the handle form
initialises `_outputStr = null`, and the `evaluator.output` import stores a
decoded string. -/
inductive JsStrVal where
  | undef : JsStrVal
  | null : JsStrVal
  | str : String → JsStrVal
deriving DecidableEq

/-- JavaScript string coercion of the output slot, as applied implicitly by
`JSON.parse` to a non-string argument. -/
def JsStrVal.asParseInput : JsStrVal → String
  | JsStrVal.undef => "undefined"
  | JsStrVal.null => "null"
  | JsStrVal.str s => s

/-- Lower-case hexadecimal digit, as used by `JSON.stringify` control-character
escapes. -/
def hexDigitStr (n : Nat) : String :=
  String.singleton (Char.ofNat (if n < 10 then 48 + n else 87 + n))

/-- Escaping of a single character inside a JSON string literal, following
`JSON.stringify`. -/
def escapeChar (c : Char) : String :=
  if c = '"' then "\\\""
  else if c = '\\' then "\\\\"
  else if c = '\n' then "\\n"
  else if c = '\r' then "\\r"
  else if c = '\t' then "\\t"
  else if c = Char.ofNat 8 then "\\b"
  else if c = Char.ofNat 12 then "\\f"
  else if c.toNat < 32 then "\\u00" ++ hexDigitStr (c.toNat / 16) ++ hexDigitStr (c.toNat % 16)
  else String.singleton c

/-- A JSON string literal for `s`, following `JSON.stringify`. -/
def escapeString (s : String) : String :=
  "\"" ++ String.join (s.data.map escapeChar) ++ "\""

mutual

/-- The `JSON.stringify` serialization of a JSON value. -/
def stringify : Json → String
  | Json.null => "null"
  | Json.bool b => cond b "true" "false"
  | Json.num n => toString n
  | Json.str s => escapeString s
  | Json.arr xs => "[" ++ stringifyElems xs ++ "]"
  | Json.obj fs => "\x7b" ++ stringifyFields fs ++ "\x7d"

/-- Comma-separated serialization of array elements. -/
def stringifyElems : List Json → String
  | [] => ""
  | [x] => stringify x
  | x :: y :: rest => stringify x ++ "," ++ stringifyElems (y :: rest)

/-- Comma-separated serialization of object fields. -/
def stringifyFields : List (String × Json) → String
  | [] => ""
  | [(k, v)] => escapeString k ++ ":" ++ stringify v
  | (k, v) :: q :: rest => escapeString k ++ ":" ++ stringify v ++ "," ++ stringifyFields (q :: rest)

end

mutual

/-- JavaScript `String(...)` coercion of a JSON value (used by
`new Error(output.error)` when the envelope's error field is not a string). -/
def jsCoerceStr : Json → String
  | Json.null => "null"
  | Json.bool b => cond b "true" "false"
  | Json.num n => toString n
  | Json.str s => s
  | Json.arr xs => jsCoerceElems xs
  | Json.obj _ => "[object Object]"

/-- JavaScript `Array.prototype.toString` joining: elements separated by
commas, with `null` elements rendered as the empty string. -/
def jsCoerceElems : List Json → String
  | [] => ""
  | [Json.null] => ""
  | [x] => jsCoerceStr x
  | Json.null :: y :: rest => "," ++ jsCoerceElems (y :: rest)
  | x :: y :: rest => jsCoerceStr x ++ "," ++ jsCoerceElems (y :: rest)

end

/-- JavaScript truthiness of a JSON value, as tested by `if (output.error)`. -/
def truthy : Json → Bool
  | Json.null => false
  | Json.bool b => b
  | Json.num n => n != 0
  | Json.str s => s != ""
  | Json.arr _ => true
  | Json.obj _ => true

/-- Truthiness of a possibly-`undefined` property value (`undefined` is falsy). -/
def truthyOpt : Option Json → Bool
  | none => false
  | some j => truthy j

/-- JSON whitespace skipping, as accepted by `JSON.parse`. -/
def skipWs : List Char → List Char
  | [] => []
  | c :: rest =>
      if c = ' ' || c = '\t' || c = '\n' || c = '\r' then skipWs rest else c :: rest

/-- Value of a hexadecimal digit character, if it is one. -/
def hexVal (c : Char) : Option Nat :=
  if '0' ≤ c && c ≤ '9' then some (c.toNat - 48)
  else if 'a' ≤ c && c ≤ 'f' then some (c.toNat - 87)
  else if 'A' ≤ c && c ≤ 'F' then some (c.toNat - 55)
  else none

/-- Decimal digit test. -/
def isDigitCh (c : Char) : Bool := '0' ≤ c && c ≤ '9'

/-- Parse the body of a JSON string literal (the opening quote already
consumed), handling the escape sequences `JSON.parse` accepts. -/
def parseStrBody (fuel : Nat) (l : List Char) (acc : String) : Option (String × List Char) :=
  match fuel with
  | 0 => none
  | fuel + 1 =>
    match l with
    | [] => none
    | '"' :: rest => some (acc, rest)
    | '\\' :: esc =>
      match esc with
      | '"' :: rest => parseStrBody fuel rest (acc.push '"')
      | '\\' :: rest => parseStrBody fuel rest (acc.push '\\')
      | '/' :: rest => parseStrBody fuel rest (acc.push '/')
      | 'n' :: rest => parseStrBody fuel rest (acc.push '\n')
      | 't' :: rest => parseStrBody fuel rest (acc.push '\t')
      | 'r' :: rest => parseStrBody fuel rest (acc.push '\r')
      | 'b' :: rest => parseStrBody fuel rest (acc.push (Char.ofNat 8))
      | 'f' :: rest => parseStrBody fuel rest (acc.push (Char.ofNat 12))
      | 'u' :: a :: b :: c :: d :: rest =>
        match hexVal a, hexVal b, hexVal c, hexVal d with
        | some x, some y, some z, some w =>
            parseStrBody fuel rest (acc.push (Char.ofNat (((x * 16 + y) * 16 + z) * 16 + w)))
        | _, _, _, _ => none
      | _ => none
    | c :: rest =>
        if c.toNat < 32 then none else parseStrBody fuel rest (acc.push c)

/-- Parse a run of decimal digits into a natural number (at least one digit). -/
def parseDigits (fuel : Nat) (l : List Char) (acc : Nat) (seen : Bool) :
    Option (Nat × List Char) :=
  match fuel with
  | 0 => none
  | fuel + 1 =>
    match l with
    | c :: rest =>
        if isDigitCh c then parseDigits fuel rest (acc * 10 + (c.toNat - 48)) true
        else if seen then some (acc, rest.cons c) else none
    | [] => if seen then some (acc, []) else none

mutual

/-- Parse one JSON value from the character stream. Covers the integer
fragment of JSON numbers; fractional or exponent forms are outside the
model and fail to parse. Fueled recursion: the top-level entry supplies
one unit of fuel per input character, which bounds nesting depth. -/
def parseVal (fuel : Nat) (l : List Char) : Option (Json × List Char) :=
  match fuel with
  | 0 => none
  | fuel + 1 =>
    match l with
    | [] => none
    | 'n' :: 'u' :: 'l' :: 'l' :: rest => some (Json.null, rest)
    | 't' :: 'r' :: 'u' :: 'e' :: rest => some (Json.bool true, rest)
    | 'f' :: 'a' :: 'l' :: 's' :: 'e' :: rest => some (Json.bool false, rest)
    | '"' :: rest =>
        match parseStrBody (rest.length + 1) rest "" with
        | some (s, rest2) => some (Json.str s, rest2)
        | none => none
    | '-' :: rest =>
        match parseDigits (rest.length + 1) rest 0 false with
        | some (n, rest2) => some (Json.num (-(n : Int)), rest2)
        | none => none
    | '[' :: rest => parseArr fuel (skipWs rest) true []
    | c :: rest =>
        if c = Char.ofNat 123 then parseObj fuel (skipWs rest) true []
        else if isDigitCh c then
          match parseDigits (l.length + 1) l 0 false with
          | some (n, rest2) => some (Json.num (n : Int), rest2)
          | none => none
        else none

/-- Parse the remainder of a JSON array (opening bracket consumed). -/
def parseArr (fuel : Nat) (l : List Char) (first : Bool) (acc : List Json) :
    Option (Json × List Char) :=
  match fuel with
  | 0 => none
  | fuel + 1 =>
    match l with
    | ']' :: rest => if first then some (Json.arr acc.reverse, rest) else none
    | _ =>
      match parseVal fuel (skipWs l) with
      | none => none
      | some (v, rest) =>
        match skipWs rest with
        | ',' :: rest2 => parseArrTail fuel (skipWs rest2) (v :: acc)
        | ']' :: rest2 => some (Json.arr (v :: acc).reverse, rest2)
        | _ => none

/-- Continue a JSON array after a comma. -/
def parseArrTail (fuel : Nat) (l : List Char) (acc : List Json) :
    Option (Json × List Char) :=
  match fuel with
  | 0 => none
  | fuel + 1 =>
    match parseVal fuel (skipWs l) with
    | none => none
    | some (v, rest) =>
      match skipWs rest with
      | ',' :: rest2 => parseArrTail fuel (skipWs rest2) (v :: acc)
      | ']' :: rest2 => some (Json.arr (v :: acc).reverse, rest2)
      | _ => none

/-- Parse the remainder of a JSON object (opening brace consumed). -/
def parseObj (fuel : Nat) (l : List Char) (first : Bool) (acc : List (String × Json)) :
    Option (Json × List Char) :=
  match fuel with
  | 0 => none
  | fuel + 1 =>
    match l with
    | c :: rest =>
        if c = Char.ofNat 125 then
          if first then some (Json.obj acc.reverse, rest) else none
        else if c = '"' then
          match parseStrBody (rest.length + 1) rest "" with
          | none => none
          | some (k, rest2) =>
            match skipWs rest2 with
            | ':' :: rest3 =>
              match parseVal fuel (skipWs rest3) with
              | none => none
              | some (v, rest4) =>
                match skipWs rest4 with
                | ',' :: rest5 => parseObjTail fuel (skipWs rest5) ((k, v) :: acc)
                | d :: rest5 =>
                    if d = Char.ofNat 125 then some (Json.obj ((k, v) :: acc).reverse, rest5)
                    else none
                | _ => none
            | _ => none
        else none
    | [] => none

/-- Continue a JSON object after a comma. -/
def parseObjTail (fuel : Nat) (l : List Char) (acc : List (String × Json)) :
    Option (Json × List Char) :=
  match fuel with
  | 0 => none
  | fuel + 1 =>
    match l with
    | '"' :: rest =>
      match parseStrBody (rest.length + 1) rest "" with
      | none => none
      | some (k, rest2) =>
        match skipWs rest2 with
        | ':' :: rest3 =>
          match parseVal fuel (skipWs rest3) with
          | none => none
          | some (v, rest4) =>
            match skipWs rest4 with
            | ',' :: rest5 => parseObjTail fuel (skipWs rest5) ((k, v) :: acc)
            | d :: rest5 =>
                if d = Char.ofNat 125 then some (Json.obj ((k, v) :: acc).reverse, rest5)
                else none
            | _ => none
        | _ => none
    | _ => none

end

/-- Parse a complete string as one JSON document, rejecting trailing
non-whitespace, following `JSON.parse`. -/
def jsonParseStr (s : String) : Option Json :=
  match parseVal (s.data.length + 1) (skipWs s.data) with
  | some (j, rest) => if (skipWs rest).isEmpty then some j else none
  | none => none

/-- `JSON.parse` applied to the output-slot variable: a non-string argument
is coerced to a string first (so `null` parses as JSON `null` and
`undefined` is a parse failure). -/
def jsonParse (v : JsStrVal) : Option Json :=
  jsonParseStr v.asParseInput

/-- JavaScript property lookup on a parsed object field list: duplicate keys
are resolved in favor of the last occurrence, as `JSON.parse` assigns fields
in order. -/
def lookupLastField (fs : List (String × Json)) (k : String) : Option Json :=
  fs.foldl (fun acc p => if p.1 = k then some p.2 else acc) none

/-- Failures a host-side evaluate call can surface. The first four are the
failures the JavaScript actually produces: a `SyntaxError` from
`JSON.parse`, a `TypeError` from reading a property of `null`, a
`new Error(message)` thrown by the host code, and a propagated sandbox
trap. The last two, `protocolViolation` and `allocationFailed`, are the
spec's error taxonomy (§7) and are part of the vocabulary only so that
claims about them can be stated; whether the code ever produces them is
settled by the theorems. -/
inductive JsError where
  | parseError : JsError
  | typeErrorNullRead : String → JsError
  | thrown : String → JsError
  | trap : JsError
  | protocolViolation : JsError
  | allocationFailed : JsError
deriving DecidableEq

/-- JavaScript property access `j.prop` on a parsed JSON value: reading a
property of `null` is a `TypeError`; reading a missing property, or a
property of a non-object primitive or array, yields `undefined` (`none`). -/
def jsPropAccess : Json → String → Except JsError (Option Json)
  | Json.null, prop => Except.error (JsError.typeErrorNullRead prop)
  | Json.obj fs, prop => Except.ok (lookupLastField fs prop)
  | _, _ => Except.ok none

/-- What the sandbox's exported `run` entry point does during one call:
either it traps (raising through the host), or it returns normally; in both
cases `outputs` lists the strings it delivered to the host's imported
`evaluator.output` callback before finishing (each delivery overwrites the
host's output slot, so the last one wins). -/
inductive RunOutcome where
  | trap : List String → RunOutcome
  | returns : List String → RunOutcome
deriving DecidableEq

/-- The sandbox's observable behavior during one evaluate call: the pointer
its `alloc` export returns for the request buffer, and what its `run` export
does. The sandbox itself (the Rust wasm module) is an external collaborator;
only its interface behavior is modelled. -/
structure SandboxBehavior where
  allocResult : Nat
  runOutcome : RunOutcome
deriving DecidableEq

/-- The sequence of sandbox operations one evaluate call performs:
instantiations, `alloc` calls (argument lengths), writes into sandbox
memory, `run` calls and `free` calls (pointer and length arguments). -/
structure Trace where
  instantiations : Nat
  allocs : List Nat
  writes : List (Nat × Nat)
  runs : List (Nat × Nat)
  frees : List (Nat × Nat)
deriving DecidableEq

/-- The outcome of one evaluate call: the value returned (possibly the
JavaScript `undefined`, i.e. `none`) or the failure raised, together with
the trace of sandbox operations performed. -/
structure EvalOutcome where
  result : Except JsError (Option Json)
  trace : Trace

/-- Process-wide mutable state of one JavaScript module scope: how many
times the artifact file has been read and the module compiled, and the
cached compilation promise (`modulePromise`), identified by a token. -/
structure Process where
  fileReads : Nat
  compiles : Nat
  modulePromise : Option Nat
deriving DecidableEq

/-- The state of a module scope right after `require` succeeded: the
top-level `fs.readFileSync("evaluator.wasm")` has run once and nothing has
been compiled yet. -/
def freshProcess : Process := ⟨1, 0, none⟩

/-- The message of the error thrown at module load when `evaluator.wasm`
is missing (evaluate.js lines 18-22, evaluator.js lines 18-22). -/
def artifactErrorMessage : String :=
  "Could not find evaluator.wasm; you probably need to build it first. See the README.md or the Makefile."

/-- A trace with no sandbox operations. -/
def emptyTrace : Trace := ⟨0, [], [], [], []⟩

/-- Module-scope initialization (evaluate.js lines 14-22): read the
artifact file, or throw the build-instruction error if it is missing. The
returned trace records the sandbox operations performed during
initialization: there are none — initialization only touches the file
system. -/
def requireModule (fileExists : Bool) : Except JsError Process × Trace :=
  if fileExists then (Except.ok freshProcess, emptyTrace)
  else (Except.error (JsError.thrown artifactErrorMessage), emptyTrace)

/-- `loadModule` of evaluate.js (lines 26-33): return the cached
`modulePromise` if set, otherwise start the compilation, cache it and
return it. The result token identifies the (in-flight or completed)
compilation promise. -/
def loadModule (p : Process) : Nat × Process :=
  match p.modulePromise with
  | some m => (m, p)
  | none => (p.compiles, ⟨p.fileReads, p.compiles + 1, some p.compiles⟩)

/-- A `Date` value as the host code consumes it: the fields read by
`nowToDate` plus the opaque result of `toISOString()`. -/
structure JsDate where
  fullYear : Int
  monthIndex : Nat
  dayOfMonth : Nat
  isoString : String

/-- The `months` array of `nowToDate` (evaluate.js lines 157-170). -/
def monthsArr : List String :=
  ["01", "02", "03", "04", "05", "06", "07", "08", "09", "10", "11", "12"]

/-- The `days` array of `nowToDate` (evaluate.js lines 171-204). -/
def daysArr : List String :=
  ["00", "01", "02", "03", "04", "05", "06", "07", "08", "09", "10",
   "11", "12", "13", "14", "15", "16", "17", "18", "19", "20",
   "21", "22", "23", "24", "25", "26", "27", "28", "29", "30", "31"]

/-- `nowToDate` of evaluate.js (lines 155-209): format the local calendar
date as `YYYY-MM-DD` via the lookup arrays (an out-of-range index renders
as `undefined`, as a template literal would). -/
def nowToDate (now : JsDate) : String :=
  toString now.fullYear ++ "-" ++ monthsArr.getD now.monthIndex "undefined" ++ "-"
    ++ daysArr.getD now.dayOfMonth "undefined"

/-- Drop object fields whose value is `undefined`, as `JSON.stringify`
does when serializing an object. -/
def dropUndefined : List (String × JsArg) → List (String × Json)
  | [] => []
  | (_, JsArg.undef) :: rest => dropUndefined rest
  | (k, JsArg.val j) :: rest => (k, j) :: dropUndefined rest

/-- The `inputJson` object literal of evaluate.js (lines 107-113): the
`value` argument defaults to `null` when it is `undefined`, the
`previousValue` argument is passed through unchanged (so an `undefined`
argument leaves the field `undefined`). -/
def inputJsonOf (expression : String) (value previousValue : JsArg) (now : JsDate) :
    List (String × JsArg) :=
  [("expression", JsArg.val (Json.str expression)),
   ("value", match value with | JsArg.undef => JsArg.val Json.null | JsArg.val j => JsArg.val j),
   ("previousValue", previousValue),
   ("now", JsArg.val (Json.str now.isoString)),
   ("date", JsArg.val (Json.str (nowToDate now)))]

/-- `JSON.stringify(inputJson)` of evaluate.js (line 115): fields holding
`undefined` are omitted from the serialized envelope. -/
def inputStrOf (expression : String) (value previousValue : JsArg) (now : JsDate) : String :=
  stringify (Json.obj (dropUndefined (inputJsonOf expression value previousValue now)))

/-- Result interpretation of evaluate.js (lines 138-147): parse the output
slot as JSON (`JSON.parse` coerces a non-string slot to a string and throws
a `SyntaxError` on malformed input), throw `new Error(output.error)` if the
`error` property is truthy, otherwise return `output.data`. -/
def interpretOutput (outputStr : JsStrVal) : Except JsError (Option Json) :=
  match jsonParse outputStr with
  | none => Except.error JsError.parseError
  | some output =>
    match jsPropAccess output "error" with
    | Except.error e => Except.error e
    | Except.ok errVal =>
      if truthyOpt errVal then
        Except.error (JsError.thrown (jsCoerceStr (errVal.getD Json.null)))
      else
        match jsPropAccess output "data" with
        | Except.error e => Except.error e
        | Except.ok dataVal => Except.ok dataVal

/-- The one-shot `evaluate` of evaluate.js (lines 50-148). One call: load
(or reuse) the compiled module, instantiate a fresh sandbox instance with
its own local output slot (`let outputStr;`, initially `undefined`),
serialize the request envelope, `alloc` a buffer of its UTF-8 byte length,
write the bytes, call `run`, then `free` — the source has no try/finally,
so when `run` traps the exception propagates and `free` is never reached —
and finally interpret the captured output. The `alloc` / write / `run` /
`free` sequence completes before `JSON.parse` runs, so the trace of the
non-trap branch does not depend on how interpretation turns out. -/
def evaluate (p : Process) (sb : SandboxBehavior) (expression : String)
    (value previousValue : JsArg) (now : JsDate) : EvalOutcome × Process :=
  let p' := (loadModule p).2
  let inputStr := inputStrOf expression value previousValue now
  let inputLen := inputStr.utf8ByteSize
  let inputPtr := sb.allocResult
  match sb.runOutcome with
  | RunOutcome.trap _ =>
      ({ result := Except.error JsError.trap,
         trace := ⟨1, [inputLen], [(inputPtr, inputLen)], [(inputPtr, inputLen)], []⟩ }, p')
  | RunOutcome.returns outs =>
      let outputStr : JsStrVal :=
        match outs.getLast? with
        | some s => JsStrVal.str s
        | none => JsStrVal.undef
      ({ result := interpretOutput outputStr,
         trace := ⟨1, [inputLen], [(inputPtr, inputLen)], [(inputPtr, inputLen)],
                   [(inputPtr, inputLen)]⟩ }, p')

namespace EvaluatorJs

/-- `loadModule` of evaluator.js (lines 26-33); the module has its own
`modulePromise` variable but the code is identical to evaluate.js. -/
def loadModule (p : Process) : Nat × Process :=
  match p.modulePromise with
  | some m => (m, p)
  | none => (p.compiles, ⟨p.fileReads, p.compiles + 1, some p.compiles⟩)

/-- `nowToDate` of evaluator.js (lines 105-159), identical to the copy in
evaluate.js. -/
def nowToDate (now : JsDate) : String :=
  toString now.fullYear ++ "-" ++ monthsArr.getD now.monthIndex "undefined" ++ "-"
    ++ daysArr.getD now.dayOfMonth "undefined"

/-- The `inputJson` object literal of evaluator.js (lines 70-76), identical
to the copy in evaluate.js. -/
def inputJsonOf (expression : String) (value previousValue : JsArg) (now : JsDate) :
    List (String × JsArg) :=
  [("expression", JsArg.val (Json.str expression)),
   ("value", match value with | JsArg.undef => JsArg.val Json.null | JsArg.val j => JsArg.val j),
   ("previousValue", previousValue),
   ("now", JsArg.val (Json.str now.isoString)),
   ("date", JsArg.val (Json.str (EvaluatorJs.nowToDate now)))]

/-- `JSON.stringify(inputJson)` of evaluator.js (line 77). -/
def inputStrOf (expression : String) (value previousValue : JsArg) (now : JsDate) : String :=
  stringify (Json.obj (dropUndefined (EvaluatorJs.inputJsonOf expression value previousValue now)))

/-- Result interpretation of evaluator.js (lines 89-96), identical logic to
evaluate.js lines 138-147. -/
def interpretOutput (outputStr : JsStrVal) : Except JsError (Option Json) :=
  match jsonParse outputStr with
  | none => Except.error JsError.parseError
  | some output =>
    match jsPropAccess output "error" with
    | Except.error e => Except.error e
    | Except.ok errVal =>
      if truthyOpt errVal then
        Except.error (JsError.thrown (jsCoerceStr (errVal.getD Json.null)))
      else
        match jsPropAccess output "data" with
        | Except.error e => Except.error e
        | Except.ok dataVal => Except.ok dataVal

/-- The reusable `Evaluator` of evaluator.js: the instance and memory are
held by the live sandbox (modelled per call by a `SandboxBehavior`); the
persistent host-side state is the `_outputStr` slot. -/
structure Evaluator where
  outputStr : JsStrVal

/-- `Evaluator.create` (evaluator.js lines 44-64): load the module,
instantiate once; the `_outputStr` field initializer sets the slot to
`null`. -/
def Evaluator.create (p : Process) : Evaluator × Process :=
  (⟨JsStrVal.null⟩, (EvaluatorJs.loadModule p).2)

/-- `Evaluator.prototype.evaluate` (evaluator.js lines 66-97). Same per-call
protocol as the one-shot form, but no module load or instantiation, and the
output slot is the persistent `_outputStr` field: each `evaluator.output`
delivery overwrites it (so if `run` returns without delivering, the slot
keeps its previous value); it is reset to `null` on line 90, after
`JSON.parse` succeeded on line 89 — when the parse throws, or when `run`
traps, the reset is never reached. As in the one-shot form there is no
try/finally, so a trap skips `free`. -/
def Evaluator.evaluate (self : Evaluator) (sb : SandboxBehavior) (expression : String)
    (value previousValue : JsArg) (now : JsDate) : EvalOutcome × Evaluator :=
  let inputStr := EvaluatorJs.inputStrOf expression value previousValue now
  let inputLen := inputStr.utf8ByteSize
  let inputPtr := sb.allocResult
  match sb.runOutcome with
  | RunOutcome.trap outs =>
      let slot : JsStrVal :=
        match outs.getLast? with
        | some s => JsStrVal.str s
        | none => self.outputStr
      ({ result := Except.error JsError.trap,
         trace := ⟨0, [inputLen], [(inputPtr, inputLen)], [(inputPtr, inputLen)], []⟩ },
       ⟨slot⟩)
  | RunOutcome.returns outs =>
      let slot : JsStrVal :=
        match outs.getLast? with
        | some s => JsStrVal.str s
        | none => self.outputStr
      ({ result := EvaluatorJs.interpretOutput slot,
         trace := ⟨0, [inputLen], [(inputPtr, inputLen)], [(inputPtr, inputLen)],
                   [(inputPtr, inputLen)]⟩ },
       ⟨match jsonParse slot with
        | some _ => JsStrVal.null
        | none => slot⟩)

end EvaluatorJs

/-- Iterate `loadModule` from a given process state, collecting the module
tokens handed to the successive callers. -/
def loadN : Nat → Process → List Nat × Process
  | 0, p => ([], p)
  | n + 1, p =>
    let r := loadModule p
    let rs := loadN n r.2
    (r.1 :: rs.1, rs.2)

/-- A concrete call-time value used by concrete witnesses and
counterexamples: 2024-01-15 (month index 0, day 15). -/
def exampleDate : JsDate := ⟨2024, 0, 15, "2024-01-15T12:00:00.000Z"⟩

/-- Identity of a JavaScript module scope in the process: evaluate.js and
evaluator.js are separate modules, each with its own top-level
`readFileSync` and its own `modulePromise` cache. -/
inductive ScopeId where
  | evaluateJs : ScopeId
  | evaluatorJs : ScopeId
deriving DecidableEq

/-- The process-wide module-cache state once index.js has required both
evaluate.js and evaluator.js: two independent module scopes, each with its
own file-read count, compile count and cache. -/
structure NodeProcess where
  evaluateScope : Process
  evaluatorScope : Process
deriving DecidableEq

/-- The state right after index.js required both modules: each module scope
ran its own top-level `fs.readFileSync("evaluator.wasm")`, so each starts
fresh with one artifact read already performed. -/
def requireBoth : NodeProcess := ⟨freshProcess, freshProcess⟩

/-- A compiled-unit reference as a caller sees it at the process level:
every `WebAssembly.compile` call yields a distinct Module object, and each
scope compiles at most once, so a unit is identified by the scope that
compiled it together with that scope's token. -/
abbrev ModuleRef : Type := ScopeId × Nat

/-- Calling `loadModule` of evaluate.js inside the two-module process:
only the evaluate.js scope's cache is consulted and updated. -/
def nodeLoadEvaluate (np : NodeProcess) : ModuleRef × NodeProcess :=
  ((ScopeId.evaluateJs, (loadModule np.evaluateScope).1),
   ⟨(loadModule np.evaluateScope).2, np.evaluatorScope⟩)

/-- Calling `loadModule` of evaluator.js inside the two-module process:
only the evaluator.js scope's cache is consulted and updated. -/
def nodeLoadEvaluator (np : NodeProcess) : ModuleRef × NodeProcess :=
  ((ScopeId.evaluatorJs, (EvaluatorJs.loadModule np.evaluatorScope).1),
   ⟨np.evaluateScope, (EvaluatorJs.loadModule np.evaluatorScope).2⟩)

/-- Total artifact file reads performed by the process across both module
scopes. -/
def totalFileReads (np : NodeProcess) : Nat :=
  np.evaluateScope.fileReads + np.evaluatorScope.fileReads

/-- Total compilations performed by the process across both module scopes. -/
def totalCompiles (np : NodeProcess) : Nat :=
  np.evaluateScope.compiles + np.evaluatorScope.compiles

/-- Property access can only fail by reading a property of `null`, and then
the error is the corresponding `TypeError`. -/
theorem jsPropAccess_error_shape (j : Json) (prop : String) (e : JsError)
    (h : jsPropAccess j prop = Except.error e) : e = JsError.typeErrorNullRead prop := by
  cases j <;> simp_all [jsPropAccess]

/-- Result interpretation never produces the spec-taxonomy failures
`allocationFailed` or `protocolViolation`: its failures are parse errors,
null-property type errors, and thrown evaluation errors. -/
theorem interpretOutput_spec_kinds (s : JsStrVal) :
    interpretOutput s ≠ Except.error JsError.allocationFailed
      ∧ interpretOutput s ≠ Except.error JsError.protocolViolation := by
  unfold interpretOutput
  cases hj : jsonParse s with
  | none => exact ⟨by simp, by simp⟩
  | some output =>
    simp only
    cases hp : jsPropAccess output "error" with
    | error e =>
      have he := jsPropAccess_error_shape output "error" e hp
      subst he
      exact ⟨by simp, by simp⟩
    | ok errVal =>
      cases ht : truthyOpt errVal with
      | true => exact ⟨by simp [ht], by simp [ht]⟩
      | false =>
        cases hd : jsPropAccess output "data" with
        | error e2 =>
          have he2 := jsPropAccess_error_shape output "data" e2 hd
          subst he2
          exact ⟨by simp [ht], by simp [ht]⟩
        | ok dataVal => exact ⟨by simp [ht], by simp [ht]⟩

/-- C1 (amended): for every evaluate call — one-shot or on a reused handle —
in which the sandbox entry point `run` returns normally, the request buffer
is released via `free` exactly once, with the same pointer returned by
`alloc` and the same byte length passed to `alloc`; but when `run` traps,
the exception propagates past the `free` call (there is no try/finally) and
the buffer is never released. -/
theorem c1_buffer_discipline (p : Process) (self : EvaluatorJs.Evaluator) (e : String)
    (v pv : JsArg) (now : JsDate) (ptr : Nat) (outs touts : List String) :
    ((evaluate p ⟨ptr, RunOutcome.returns outs⟩ e v pv now).1.trace.allocs
        = [(inputStrOf e v pv now).utf8ByteSize]
      ∧ (evaluate p ⟨ptr, RunOutcome.returns outs⟩ e v pv now).1.trace.frees
        = [(ptr, (inputStrOf e v pv now).utf8ByteSize)])
    ∧ ((evaluate p ⟨ptr, RunOutcome.trap touts⟩ e v pv now).1.trace.allocs
        = [(inputStrOf e v pv now).utf8ByteSize]
      ∧ (evaluate p ⟨ptr, RunOutcome.trap touts⟩ e v pv now).1.trace.frees = [])
    ∧ ((EvaluatorJs.Evaluator.evaluate self ⟨ptr, RunOutcome.returns outs⟩ e v pv now).1.trace.allocs
        = [(EvaluatorJs.inputStrOf e v pv now).utf8ByteSize]
      ∧ (EvaluatorJs.Evaluator.evaluate self ⟨ptr, RunOutcome.returns outs⟩ e v pv now).1.trace.frees
        = [(ptr, (EvaluatorJs.inputStrOf e v pv now).utf8ByteSize)])
    ∧ ((EvaluatorJs.Evaluator.evaluate self ⟨ptr, RunOutcome.trap touts⟩ e v pv now).1.trace.allocs
        = [(EvaluatorJs.inputStrOf e v pv now).utf8ByteSize]
      ∧ (EvaluatorJs.Evaluator.evaluate self ⟨ptr, RunOutcome.trap touts⟩ e v pv now).1.trace.frees
        = []) :=
  ⟨⟨rfl, rfl⟩, ⟨rfl, rfl⟩, ⟨rfl, rfl⟩, ⟨rfl, rfl⟩⟩

/-- C1 counterexample: a concrete call in which `run` traps performs one
`alloc` and zero `free` calls, so the request buffer is not released on
that exit path, refuting the claim that `free` is called on every exit
path including traps. -/
theorem c1_trap_leak_counterexample :
    (evaluate freshProcess ⟨1, RunOutcome.trap []⟩ "expr" JsArg.undef JsArg.undef
        exampleDate).1.trace.allocs.length = 1
  ∧ (evaluate freshProcess ⟨1, RunOutcome.trap []⟩ "expr" JsArg.undef JsArg.undef
        exampleDate).1.trace.frees.length = 0 :=
  ⟨rfl, rfl⟩

/-- C2 (amended): when `run` returns without having invoked the
`evaluator.output` callback, the call always fails and never returns a
value, but not with a dedicated ProtocolViolation failure: the one-shot
form throws the `SyntaxError` from `JSON.parse` of the still-undefined
output slot, and a handle whose slot is `null` between sessions throws a
`TypeError` from reading the `error` property of `JSON.parse(null) = null`. -/
theorem c2_no_output_behavior (p : Process) (e : String) (v pv : JsArg) (now : JsDate)
    (ptr : Nat) :
    (evaluate p ⟨ptr, RunOutcome.returns []⟩ e v pv now).1.result
        = Except.error JsError.parseError
    ∧ (EvaluatorJs.Evaluator.evaluate ⟨JsStrVal.null⟩ ⟨ptr, RunOutcome.returns []⟩ e v pv
          now).1.result = Except.error (JsError.typeErrorNullRead "error") :=
  ⟨rfl, rfl⟩

/-- C2 counterexample: on a concrete call in which `run` returns without
invoking the output callback, the one-shot form fails with the JSON parse
error, which is not a ProtocolViolation failure, refuting the claim as
stated. -/
theorem c2_counterexample :
    (evaluate freshProcess ⟨1, RunOutcome.returns []⟩ "expr" JsArg.undef JsArg.undef
        exampleDate).1.result = Except.error JsError.parseError
  ∧ (evaluate freshProcess ⟨1, RunOutcome.returns []⟩ "expr" JsArg.undef JsArg.undef
        exampleDate).1.result ≠ Except.error JsError.protocolViolation := by
  refine ⟨rfl, ?_⟩
  rw [show (evaluate freshProcess ⟨1, RunOutcome.returns []⟩ "expr" JsArg.undef JsArg.undef
        exampleDate).1.result = Except.error JsError.parseError from rfl]
  intro h
  exact absurd (Except.error.inj h) (by decide)

/-- C9: when the artifact file `evaluator.wasm` is missing, module
initialization fails with the error whose message instructs the operator
to build the artifact, and the initialization performs no sandbox
operation at all (no instantiation, no alloc, no run, no free). -/
theorem c9_artifact_missing :
    requireModule false
      = (Except.error (JsError.thrown
          "Could not find evaluator.wasm; you probably need to build it first. See the README.md or the Makefile."),
         emptyTrace)
  ∧ (requireModule false).2.instantiations = 0
  ∧ (requireModule false).2.allocs = []
  ∧ (requireModule false).2.runs = []
  ∧ (requireModule false).2.frees = [] :=
  ⟨rfl, rfl, rfl, rfl, rfl⟩

/-- C10: the one-shot `evaluate` instantiates a fresh sandbox instance and
a fresh local output slot on every call, so its outcome does not depend on
the process state (and in particular not on any earlier one-shot call
having run); the only process state a call touches is the module cache. -/
theorem c10_oneshot_independence (p q : Process) (sb sb2 : SandboxBehavior)
    (e e2 : String) (v v2 pv pv2 : JsArg) (now now2 : JsDate) :
    (evaluate p sb e v pv now).1 = (evaluate q sb e v pv now).1
  ∧ (evaluate ((evaluate p sb2 e2 v2 pv2 now2).2) sb e v pv now).1
      = (evaluate p sb e v pv now).1
  ∧ (evaluate p sb e v pv now).2 = (loadModule p).2 := by
  obtain ⟨ptr, ro⟩ := sb
  cases ro <;> exact ⟨rfl, rfl, rfl⟩

/-- C7 (amended): within one module scope, iterating that scope's
`loadModule` any positive number of times performs exactly one compilation
(against the scope's single artifact read already performed at require
time), and every caller of that scope receives the same compiled-module
token, whether it calls before or after the cached promise settles; the
copy of `loadModule` in evaluator.js is code-identical to the one in
evaluate.js, but each scope has its own cache, so the guarantee is
per scope, not per process. -/
theorem c7_module_load_idempotent (n : Nat) :
    (loadN (n + 1) freshProcess).1 = List.replicate (n + 1) 0
  ∧ (loadN (n + 1) freshProcess).2 = ⟨1, 1, some 0⟩
  ∧ (∀ q : Process, EvaluatorJs.loadModule q = loadModule q) := by
  have hstep : ∀ k, loadN k ⟨1, 1, some 0⟩ = (List.replicate k 0, ⟨1, 1, some 0⟩) := by
    intro k
    induction k with
    | zero => rfl
    | succ k ih => simp [loadN, loadModule, ih, List.replicate]
  refine ⟨?_, ?_, fun q => rfl⟩ <;>
    simp [loadN, loadModule, freshProcess, hstep n, List.replicate]

/-- C7 counterexample: the per-process claim fails on a process that, like
index.js, requires both evaluate.js and evaluator.js. Each module scope
runs its own top-level `readFileSync` and keeps its own `modulePromise`,
so requiring both already performs two artifact reads; after one
module-load through each entry point the process has performed two
compilations, and the two callers hold references to distinct compiled
units — refuting "exactly one artifact file read and exactly one
compilation per process, and all N callers receive a reference to the
same compiled unit". -/
theorem c7_two_scopes_counterexample :
    totalFileReads requireBoth = 2
  ∧ totalCompiles (nodeLoadEvaluator (nodeLoadEvaluate requireBoth).2).2 = 2
  ∧ (nodeLoadEvaluate requireBoth).1
      ≠ (nodeLoadEvaluator (nodeLoadEvaluate requireBoth).2).1 := by
  refine ⟨rfl, rfl, ?_⟩
  decide

/-- C5: the serialized Request Envelope maps an absent (`undefined`)
`value` argument to an explicit null `value` field, and preserves the
distinction between `previousValue` omitted (the field is entirely absent
from the serialized envelope) and `previousValue` explicitly null (the
field is present with value null): the two serializations are never equal.
The handle form serializes identically. -/
theorem c5_envelope_serialization (e : String) (jv : Json) (v pv : JsArg) (now : JsDate) :
    inputStrOf e JsArg.undef pv now = inputStrOf e (JsArg.val Json.null) pv now
  ∧ dropUndefined (inputJsonOf e (JsArg.val jv) JsArg.undef now)
      = [("expression", Json.str e), ("value", jv),
         ("now", Json.str now.isoString), ("date", Json.str (nowToDate now))]
  ∧ dropUndefined (inputJsonOf e (JsArg.val jv) (JsArg.val Json.null) now)
      = [("expression", Json.str e), ("value", jv), ("previousValue", Json.null),
         ("now", Json.str now.isoString), ("date", Json.str (nowToDate now))]
  ∧ inputStrOf e (JsArg.val jv) JsArg.undef now
      ≠ inputStrOf e (JsArg.val jv) (JsArg.val Json.null) now
  ∧ EvaluatorJs.inputStrOf e v pv now = inputStrOf e v pv now := by
  refine ⟨rfl, rfl, rfl, ?_, rfl⟩
  intro h
  have hl := congrArg String.length h
  simp only [inputStrOf, inputJsonOf, dropUndefined, stringify, stringifyFields,
    String.length_append] at hl
  have h1 : String.length ":" = 1 := rfl
  omega

/-- C6 (amended): the host never inspects the pointer returned by `alloc`,
so when the allocator signals exhaustion by returning 0 the session is not
aborted: the request bytes are written at pointer 0, the entry point `run`
is invoked with pointer 0, and the call completes (or fails) exactly as the
delivered outputs dictate — it never fails with an AllocationFailed
failure, in either the one-shot or the handle form. -/
theorem c6_alloc_unchecked (p : Process) (self : EvaluatorJs.Evaluator) (e : String)
    (v pv : JsArg) (now : JsDate) (ro : RunOutcome) :
    (evaluate p ⟨0, ro⟩ e v pv now).1.trace.writes
        = [(0, (inputStrOf e v pv now).utf8ByteSize)]
  ∧ (evaluate p ⟨0, ro⟩ e v pv now).1.trace.runs
        = [(0, (inputStrOf e v pv now).utf8ByteSize)]
  ∧ (evaluate p ⟨0, ro⟩ e v pv now).1.result ≠ Except.error JsError.allocationFailed
  ∧ (EvaluatorJs.Evaluator.evaluate self ⟨0, ro⟩ e v pv now).1.trace.runs
        = [(0, (EvaluatorJs.inputStrOf e v pv now).utf8ByteSize)]
  ∧ (EvaluatorJs.Evaluator.evaluate self ⟨0, ro⟩ e v pv now).1.result
        ≠ Except.error JsError.allocationFailed := by
  cases ro with
  | trap touts =>
    refine ⟨rfl, rfl, ?_, rfl, ?_⟩ <;>
      · intro h
        exact absurd (Except.error.inj h) (by decide)
  | returns outs =>
    refine ⟨rfl, rfl, ?_, rfl, ?_⟩
    · exact (interpretOutput_spec_kinds _).1
    · exact (interpretOutput_spec_kinds _).1

/-- C6 counterexample: on a concrete call in which `alloc` returns the
exhaustion sentinel 0, the session still invokes the entry point (with
pointer 0) and returns the envelope's data value, rather than failing with
an AllocationFailed failure before `run` is invoked — refuting the claim
as stated. -/
theorem c6_counterexample :
    (evaluate freshProcess ⟨0, RunOutcome.returns ["\x7b\"data\":1\x7d"]⟩ "expr" JsArg.undef
        JsArg.undef exampleDate).1.result = Except.ok (some (Json.num 1))
  ∧ (evaluate freshProcess ⟨0, RunOutcome.returns ["\x7b\"data\":1\x7d"]⟩ "expr" JsArg.undef
        JsArg.undef exampleDate).1.trace.runs
      = [(0, (inputStrOf "expr" JsArg.undef JsArg.undef exampleDate).utf8ByteSize)]
  ∧ [(0, (inputStrOf "expr" JsArg.undef JsArg.undef exampleDate).utf8ByteSize)]
      ≠ ([] : List (Nat × Nat)) := by
  refine ⟨rfl, rfl, ?_⟩
  simp

/-- C8 (amended): for identical inputs, identical call time and identical
sandbox behavior, the handle's `evaluate` and the one-shot `evaluate`
return the same result or raise the same failure, and perform the same
`alloc`/write/`run`/`free` sequence — differing only in that the handle
performs no instantiation — in every case where `run` traps or delivers at
least one output; only when `run` returns without having invoked the
output callback do the two forms diverge (they both fail, with different
errors). This holds for a handle in any slot state, since a delivered
output overwrites the slot. -/
theorem c8_handle_oneshot_agreement (p : Process) (self : EvaluatorJs.Evaluator)
    (e : String) (v pv : JsArg) (now : JsDate) (ptr : Nat) :
    (∀ s rest,
        ((evaluate p ⟨ptr, RunOutcome.returns (s :: rest)⟩ e v pv now).1.result
          = (EvaluatorJs.Evaluator.evaluate self ⟨ptr, RunOutcome.returns (s :: rest)⟩
              e v pv now).1.result)
      ∧ ((evaluate p ⟨ptr, RunOutcome.returns (s :: rest)⟩ e v pv now).1.trace.allocs
          = (EvaluatorJs.Evaluator.evaluate self ⟨ptr, RunOutcome.returns (s :: rest)⟩
              e v pv now).1.trace.allocs)
      ∧ ((evaluate p ⟨ptr, RunOutcome.returns (s :: rest)⟩ e v pv now).1.trace.writes
          = (EvaluatorJs.Evaluator.evaluate self ⟨ptr, RunOutcome.returns (s :: rest)⟩
              e v pv now).1.trace.writes)
      ∧ ((evaluate p ⟨ptr, RunOutcome.returns (s :: rest)⟩ e v pv now).1.trace.runs
          = (EvaluatorJs.Evaluator.evaluate self ⟨ptr, RunOutcome.returns (s :: rest)⟩
              e v pv now).1.trace.runs)
      ∧ ((evaluate p ⟨ptr, RunOutcome.returns (s :: rest)⟩ e v pv now).1.trace.frees
          = (EvaluatorJs.Evaluator.evaluate self ⟨ptr, RunOutcome.returns (s :: rest)⟩
              e v pv now).1.trace.frees))
  ∧ (∀ touts,
        ((evaluate p ⟨ptr, RunOutcome.trap touts⟩ e v pv now).1.result
          = (EvaluatorJs.Evaluator.evaluate self ⟨ptr, RunOutcome.trap touts⟩
              e v pv now).1.result)
      ∧ ((evaluate p ⟨ptr, RunOutcome.trap touts⟩ e v pv now).1.trace.allocs
          = (EvaluatorJs.Evaluator.evaluate self ⟨ptr, RunOutcome.trap touts⟩
              e v pv now).1.trace.allocs)
      ∧ ((evaluate p ⟨ptr, RunOutcome.trap touts⟩ e v pv now).1.trace.frees
          = (EvaluatorJs.Evaluator.evaluate self ⟨ptr, RunOutcome.trap touts⟩
              e v pv now).1.trace.frees)) :=
  ⟨fun _ _ => ⟨rfl, rfl, rfl, rfl, rfl⟩, fun _ => ⟨rfl, rfl, rfl⟩⟩

/-- C8 counterexample: with identical inputs and identical sandbox behavior
(`run` returns without invoking the output callback), the one-shot form and
a between-sessions handle raise different failures, refuting the claim that
the two forms always return the same result or raise the same failure. -/
theorem c8_counterexample :
    (evaluate freshProcess ⟨1, RunOutcome.returns []⟩ "ListPrice" JsArg.undef JsArg.undef
        exampleDate).1.result = Except.error JsError.parseError
  ∧ (EvaluatorJs.Evaluator.evaluate ⟨JsStrVal.null⟩ ⟨1, RunOutcome.returns []⟩ "ListPrice"
        JsArg.undef JsArg.undef exampleDate).1.result
      = Except.error (JsError.typeErrorNullRead "error")
  ∧ (evaluate freshProcess ⟨1, RunOutcome.returns []⟩ "ListPrice" JsArg.undef JsArg.undef
        exampleDate).1.result
      ≠ (EvaluatorJs.Evaluator.evaluate ⟨JsStrVal.null⟩ ⟨1, RunOutcome.returns []⟩ "ListPrice"
          JsArg.undef JsArg.undef exampleDate).1.result := by
  refine ⟨rfl, rfl, ?_⟩
  rw [show (evaluate freshProcess ⟨1, RunOutcome.returns []⟩ "ListPrice" JsArg.undef JsArg.undef
        exampleDate).1.result = Except.error JsError.parseError from rfl,
      show (EvaluatorJs.Evaluator.evaluate ⟨JsStrVal.null⟩ ⟨1, RunOutcome.returns []⟩ "ListPrice"
        JsArg.undef JsArg.undef exampleDate).1.result
      = Except.error (JsError.typeErrorNullRead "error") from rfl]
  intro h
  exact absurd (Except.error.inj h) (by decide)

/-- C3 (amended): the session fails with `Error(output.error)` exactly when
the envelope's `error` field is truthy — then the failure carries the
field's text unmodified (for a nonempty string value, the message is
exactly that string, even when `data` is also present) — and when the
`error` field is absent or falsy (for instance the empty string), the call
instead returns the envelope's `data` value. Both forms behave alike. -/
theorem c3_error_surfacing (p : Process) (self : EvaluatorJs.Evaluator) (e : String)
    (v pv : JsArg) (now : JsDate) (ptr : Nat) (s : String) (fs : List (String × Json))
    (hp : jsonParse (JsStrVal.str s) = some (Json.obj fs)) :
    (truthyOpt (lookupLastField fs "error") = true →
        (evaluate p ⟨ptr, RunOutcome.returns [s]⟩ e v pv now).1.result
          = Except.error
              (JsError.thrown (jsCoerceStr ((lookupLastField fs "error").getD Json.null)))
      ∧ (EvaluatorJs.Evaluator.evaluate self ⟨ptr, RunOutcome.returns [s]⟩ e v pv now).1.result
          = Except.error
              (JsError.thrown (jsCoerceStr ((lookupLastField fs "error").getD Json.null))))
  ∧ (truthyOpt (lookupLastField fs "error") = false →
        (evaluate p ⟨ptr, RunOutcome.returns [s]⟩ e v pv now).1.result
          = Except.ok (lookupLastField fs "data")
      ∧ (EvaluatorJs.Evaluator.evaluate self ⟨ptr, RunOutcome.returns [s]⟩ e v pv now).1.result
          = Except.ok (lookupLastField fs "data"))
  ∧ (∀ m, lookupLastField fs "error" = some (Json.str m) → m ≠ "" →
        (evaluate p ⟨ptr, RunOutcome.returns [s]⟩ e v pv now).1.result
          = Except.error (JsError.thrown m)) := by
  have hone : (evaluate p ⟨ptr, RunOutcome.returns [s]⟩ e v pv now).1.result
      = interpretOutput (JsStrVal.str s) := rfl
  have htwo : (EvaluatorJs.Evaluator.evaluate self ⟨ptr, RunOutcome.returns [s]⟩ e v pv
      now).1.result = interpretOutput (JsStrVal.str s) := rfl
  have hkey : interpretOutput (JsStrVal.str s)
      = (if truthyOpt (lookupLastField fs "error") then
           Except.error
             (JsError.thrown (jsCoerceStr ((lookupLastField fs "error").getD Json.null)))
         else Except.ok (lookupLastField fs "data")) := by
    unfold interpretOutput
    rw [hp]
    simp [jsPropAccess]
  refine ⟨?_, ?_, ?_⟩
  · intro ht
    rw [hone, htwo, hkey, if_pos ht]
    exact ⟨rfl, rfl⟩
  · intro ht
    rw [hone, htwo, hkey, if_neg (by simp [ht])]
    exact ⟨rfl, rfl⟩
  · intro m hm hne
    have ht : truthyOpt (some (Json.str m)) = true := by
      simp [truthyOpt, truthy, hne]
    rw [hone, hkey, hm, if_pos ht]
    rfl

/-- C3 witness: on a concrete envelope `\x7b"error":"bad token","data":2\x7d`
the call fails carrying exactly the text `bad token`. -/
theorem c3_error_surfacing_witness :
    jsonParse (JsStrVal.str "\x7b\"error\":\"bad token\",\"data\":2\x7d")
      = some (Json.obj [("error", Json.str "bad token"), ("data", Json.num 2)])
  ∧ (evaluate freshProcess
        ⟨1, RunOutcome.returns ["\x7b\"error\":\"bad token\",\"data\":2\x7d"]⟩
        "expr" JsArg.undef JsArg.undef exampleDate).1.result
      = Except.error (JsError.thrown "bad token") := by
  refine ⟨rfl, ?_⟩
  exact (c3_error_surfacing freshProcess ⟨JsStrVal.null⟩ "expr" JsArg.undef JsArg.undef
      exampleDate 1 "\x7b\"error\":\"bad token\",\"data\":2\x7d"
      [("error", Json.str "bad token"), ("data", Json.num 2)] rfl).2.2 "bad token" rfl
      (by decide)

/-- C3 counterexample: a concrete Response Envelope that contains an
`error` field (with the falsy value `""`) does not make the call fail: the
call returns the envelope's `data` value `5`, refuting the claim that every
envelope containing an `error` field raises a failure. -/
theorem c3_falsy_error_counterexample :
    jsonParse (JsStrVal.str "\x7b\"error\":\"\",\"data\":5\x7d")
      = some (Json.obj [("error", Json.str ""), ("data", Json.num 5)])
  ∧ lookupLastField [("error", Json.str ""), ("data", Json.num 5)] "error"
      = some (Json.str "")
  ∧ (evaluate freshProcess ⟨1, RunOutcome.returns ["\x7b\"error\":\"\",\"data\":5\x7d"]⟩
        "expr" JsArg.undef JsArg.undef exampleDate).1.result
      = Except.ok (some (Json.num 5)) :=
  ⟨rfl, rfl, rfl⟩

/-- C4 (amended): on a reused handle, the `_outputStr` slot is reset to
`null` after every session in which `run` returned and the captured output
parsed (both the success path and the evaluation-error path); it is not
reset on the response-parse-failure path (nor when `run` traps), because
the reset statement sits after `JSON.parse` and is skipped when the parse
throws. -/
theorem c4_slot_cleared_on_parse_success (self : EvaluatorJs.Evaluator) (e : String)
    (v pv : JsArg) (now : JsDate) (ptr : Nat) (outs : List String)
    (hres : (EvaluatorJs.Evaluator.evaluate self ⟨ptr, RunOutcome.returns outs⟩ e v pv
        now).1.result ≠ Except.error JsError.parseError) :
    (EvaluatorJs.Evaluator.evaluate self ⟨ptr, RunOutcome.returns outs⟩ e v pv
        now).2.outputStr = JsStrVal.null := by
  cases hg : outs.getLast? with
  | none =>
    simp only [EvaluatorJs.Evaluator.evaluate, hg] at hres ⊢
    cases hj : jsonParse self.outputStr with
    | none => simp [EvaluatorJs.interpretOutput, hj] at hres
    | some j => simp [hj]
  | some s =>
    simp only [EvaluatorJs.Evaluator.evaluate, hg] at hres ⊢
    cases hj : jsonParse (JsStrVal.str s) with
    | none => simp [EvaluatorJs.interpretOutput, hj] at hres
    | some j => simp [hj]

/-- C4 witness: a concrete successful session on a reused handle leaves the
slot reset to `null`. -/
theorem c4_slot_cleared_witness :
    ((EvaluatorJs.Evaluator.evaluate ⟨JsStrVal.null⟩
        ⟨1, RunOutcome.returns ["\x7b\"data\":3\x7d"]⟩ "expr" JsArg.undef JsArg.undef
        exampleDate).1.result ≠ Except.error JsError.parseError)
  ∧ (EvaluatorJs.Evaluator.evaluate ⟨JsStrVal.null⟩
        ⟨1, RunOutcome.returns ["\x7b\"data\":3\x7d"]⟩ "expr" JsArg.undef JsArg.undef
        exampleDate).2.outputStr = JsStrVal.null := by
  have hres : (EvaluatorJs.Evaluator.evaluate ⟨JsStrVal.null⟩
      ⟨1, RunOutcome.returns ["\x7b\"data\":3\x7d"]⟩ "expr" JsArg.undef JsArg.undef
      exampleDate).1.result ≠ Except.error JsError.parseError := by
    rw [show (EvaluatorJs.Evaluator.evaluate ⟨JsStrVal.null⟩
        ⟨1, RunOutcome.returns ["\x7b\"data\":3\x7d"]⟩ "expr" JsArg.undef JsArg.undef
        exampleDate).1.result = Except.ok (some (Json.num 3)) from rfl]
    intro h
    exact Except.noConfusion h
  exact ⟨hres, c4_slot_cleared_on_parse_success ⟨JsStrVal.null⟩ "expr" JsArg.undef JsArg.undef
      exampleDate 1 ["\x7b\"data\":3\x7d"] hres⟩

/-- C4 counterexample: a concrete session whose output does not parse as
JSON exits with the slot still holding the undecodable output rather than
`null`, refuting the claim that the slot is cleared on every exit path
including response-parse failure. -/
theorem c4_stale_slot_counterexample :
    (EvaluatorJs.Evaluator.evaluate ⟨JsStrVal.null⟩ ⟨1, RunOutcome.returns ["not json"]⟩
        "expr" JsArg.undef JsArg.undef exampleDate).1.result
      = Except.error JsError.parseError
  ∧ (EvaluatorJs.Evaluator.evaluate ⟨JsStrVal.null⟩ ⟨1, RunOutcome.returns ["not json"]⟩
        "expr" JsArg.undef JsArg.undef exampleDate).2.outputStr = JsStrVal.str "not json"
  ∧ JsStrVal.str "not json" ≠ JsStrVal.null :=
  ⟨rfl, rfl, by decide⟩
